import Mathlib

/-!
Verification of the motion-analytics engine of `backend/form_analyzer.py`
(class `FormAnalyzer`): adaptive step detection, cadence, activity
classification with the stationary override, calorie accumulation, and the
per-exercise rep-detection state machines.

Numbers are modelled as exact rationals (`ℚ`); Python floats are treated as
real-valued arithmetic.  Timestamps are rationals (epoch seconds).  The one
irrational operation in the source, the standard deviation
`np.std = sqrt(variance)` used in the adaptive step threshold, is encoded
without square roots by an equivalent squared comparison; the lemma
`threshold_encode` below proves the encoding equivalent to the literal
real-valued formula.
-/

namespace FormAnalyzerSpec

/-- Last `n` elements of a list in order, as Python `l[-n:]`. -/
def lastN (n : ℕ) (l : List α) : List α := l.drop (l.length - n)

/-- Append to a bounded buffer, evicting the oldest element past `cap`
(the behaviour of `collections.deque(maxlen=cap)`). -/
def pushCap (cap : ℕ) (buf : List α) (x : α) : List α :=
  let b := buf ++ [x]
  if cap < b.length then b.drop (b.length - cap) else b

/-- Arithmetic mean of a list, `np.mean` (0 on the empty list, never hit:
the source guards with a minimum buffer length). -/
def listMean (l : List ℚ) : ℚ := l.sum / l.length

/-- Population variance of a list, the square of `np.std`. -/
def listVar (l : List ℚ) : ℚ := (l.map (fun x => (x - listMean l) ^ 2)).sum / l.length

/-- Fold-based maximum of a list of non-negative rationals; agrees with
Python `max(l)` on the non-empty lists of absolute values it is applied to. -/
def listMaxD (l : List ℚ) : ℚ := l.foldl max 0

/-- Peak test of `_process_activity_and_steps` (form_analyzer.py lines
797-817): with the current sample already appended to the buffer, require at
least 5 buffered samples, take the last 10 magnitudes, and test whether the
element at index 2 exceeds the adaptive threshold
`mean + max(0.3, 1.5 * std)` over the whole buffer and is strictly greater
than the elements at indices 0, 1, 3 and 4.  The threshold comparison
`r2 > mean + max(0.3, 1.5 * sqrt var)` is encoded square-root-free as
`mean + 0.3 < r2 ∧ (9/4) * var < (r2 - mean)^2`; `threshold_encode` proves
the two forms equivalent. -/
def isPeak (buf : List (ℚ × ℚ)) : Bool :=
  if 5 ≤ buf.length then
    let windowMags := buf.map Prod.snd
    let recent := lastN 10 windowMags
    let m := listMean windowMags
    let v := listVar windowMags
    if 5 ≤ recent.length then
      let r0 := recent.getD 0 0
      let r1 := recent.getD 1 0
      let r2 := recent.getD 2 0
      let r3 := recent.getD 3 0
      let r4 := recent.getD 4 0
      if m + 3/10 < r2 ∧ (9/4) * v < (r2 - m) ^ 2 ∧
          r1 < r2 ∧ r0 < r2 ∧ r3 < r2 ∧ r4 < r2 then true else false
    else false
  else false

/-- The square-root-free threshold encoding used in `isPeak` is equivalent
to the literal formula of the source, `x > mean + max(0.3, 1.5 * sqrt v)`,
for every non-negative variance `v`. -/
theorem threshold_encode (m v x : ℝ) (hv : 0 ≤ v) :
    m + max (3/10) ((3/2) * Real.sqrt v) < x ↔
      (m + 3/10 < x ∧ (9/4) * v < (x - m) ^ 2) := by
  have hmax : m + max (3/10 : ℝ) ((3/2) * Real.sqrt v)
      = max (m + 3/10) (m + (3/2) * Real.sqrt v) := by
    rw [max_add_add_left]
  rw [hmax, max_lt_iff]
  have hs := Real.sqrt_nonneg v
  have hsq : Real.sqrt v ^ 2 = v := Real.sq_sqrt hv
  constructor
  · rintro ⟨h1, h2⟩
    refine ⟨h1, ?_⟩
    nlinarith [h1, h2, hs, hsq]
  · rintro ⟨h1, h2⟩
    refine ⟨h1, ?_⟩
    nlinarith [h1, h2, hs, hsq]

/-- Step-acceptance logic of `_process_activity_and_steps` (lines 819-829):
given the previous accepted-step timestamp, the running step count, the
current sample time and whether the current window shows a candidate peak,
return the new timestamp, the new count and the `step_detected` flag.  The
first-ever candidate sets the timestamp without incrementing the count;
later candidates are accepted only when the elapsed time since the last
accepted step lies in `[0.3, 2.0]` seconds inclusive. -/
def acceptStep (last : Option ℚ) (count : ℕ) (now : ℚ) (isp : Bool) :
    Option ℚ × ℕ × Bool :=
  if isp then
    match last with
    | none => (some now, count, true)
    | some t0 =>
      if 3/10 ≤ now - t0 ∧ now - t0 ≤ 2 then (some now, count + 1, true)
      else (some t0, count, false)
  else (last, count, false)

/-- Cadence computation of `_process_activity_and_steps` (lines 831-835):
`window_start = now - 10`; keep the buffer timestamps `≥ window_start`, then
keep those `≥ window_start - 0.5` (a vacuous second filter), and multiply
the surviving count by 6. -/
def cadence (buf : List (ℚ × ℚ)) (now : ℚ) : ℕ :=
  let ws := now - 10
  let recentTs := (buf.map Prod.fst).filter (fun t => ws ≤ t)
  (recentTs.filter (fun t => ws - 1/2 ≤ t)).length * 6

/-- Heuristic fallback classifier `_simple_activity_classification`
(lines 952-973), a pure function of cadence, acceleration magnitude and
gyroscope magnitude returning an activity label and a confidence. -/
def simpleActivityClassification (cadenceSpm accMag gyroMag : ℚ) : String × ℚ :=
  if cadenceSpm < 20 ∧ accMag < 1.05 ∧ gyroMag < 80 then
    ("stationary", 0.9)
  else if 80 ≤ cadenceSpm ∨ (300 < gyroMag ∧ 1.2 < accMag) then
    ("running", min 1 (0.5 + max ((cadenceSpm - 80) / 120) ((gyroMag - 300) / 400)))
  else if 20 ≤ cadenceSpm ∨ 1.05 < accMag ∨ 120 < gyroMag then
    ("walking", min 0.9 (0.3 + max (cadenceSpm / 120) (accMag - 1)))
  else
    ("stationary", 0.85)

/-- Activity classification stage of `_process_activity_and_steps`
(lines 837-880).  `outcome` is the result of the injected classifier model:
`some (label, confidence)` when the model is present, the session is in
normal mode and prediction succeeds (confidence is the max of
`predict_proba` or the 0.8 default); `none` when the model is absent, the
session is in workout mode, or prediction raised — all three of which the
source routes to `_simple_activity_classification`.  The final safety
override (lines 874-880) then forces `stationary` with confidence 0.9
whenever cadence < 20, accMag < 1.05 and gyroMag < 80, regardless of the
classification produced before it. -/
def classifyActivity (outcome : Option (String × ℚ))
    (cadenceSpm accMag gyroMag : ℚ) : String × ℚ :=
  let base :=
    match outcome with
    | some r => r
    | none => simpleActivityClassification cadenceSpm accMag gyroMag
  if cadenceSpm < 20 ∧ accMag < 1.05 ∧ gyroMag < 80 then ("stationary", 0.9)
  else base

/-- MET assignment of the calorie fallback (lines 925-929): 3.5 for
walking, 9.8 for running, 1.0 (resting) for any other activity label. -/
def metOf (activity : String) : ℚ :=
  if activity = "walking" then 3.5
  else if activity = "running" then 9.8
  else 1

/-- Elapsed minutes between metric updates (lines 900-904): when no
previous metric time exists it is first set to `now`, so the elapsed time
is 0; otherwise `dt = max(0, now - last)` (clamped when the clock goes
backwards) and minutes is `dt / 60` when `dt > 0`, else 0. -/
def elapsedMinutes (lastMetric : Option ℚ) (now : ℚ) : ℚ :=
  let last := lastMetric.getD now
  let dt := max 0 (now - last)
  if 0 < dt then dt / 60 else 0

/-- Per-sample calorie increment (lines 896-935).  If the heart rate is
strictly between 0 and 200 and elapsed minutes are positive, use the
heart-rate formula clamped to be non-negative; otherwise the MET fallback
`met * weightKg * hours` with `hours = minutes / 60`. -/
def calorieIncrement (hr weightKg age minutes : ℚ) (activity : String) : ℚ :=
  if 0 < hr ∧ hr < 200 ∧ 0 < minutes then
    max 0 ((-55.0969 + 0.6309 * hr + 0.1988 * weightKg + 0.2017 * age) / 4.184)
      * minutes
  else
    metOf activity * weightKg * (minutes / 60)

/-- User profile fields of `FormAnalyzer` (defaults 170 cm, 70 kg, 30 y). -/
structure Profile where
  heightCm : ℚ
  weightKg : ℚ
  age : ℚ
deriving DecidableEq, Repr

/-- Default profile set in `FormAnalyzer.__init__`. -/
def defaultProfile : Profile := ⟨170, 70, 30⟩

/-- Mutable analytics state of `FormAnalyzer` touched by
`_process_activity_and_steps`: the bounded step buffer of
`(timestamp, accelerationMagnitude)` pairs (`deque(maxlen=100)`),
`_last_step_time`, `step_count`, `_last_metric_time` and
`_calories_accum`. -/
structure StepState where
  buffer : List (ℚ × ℚ)
  lastStepTime : Option ℚ
  stepCount : ℕ
  lastMetricTime : Option ℚ
  caloriesAccum : ℚ
deriving DecidableEq, Repr

/-- Freshly constructed analytics state (`FormAnalyzer.__init__`). -/
def initStepState : StepState := ⟨[], none, 0, none, 0⟩

/-- The `latest_metrics` snapshot (lines 941-948).  The source applies
display rounding (`round(x, 2)` / `round(x, 4)`) to the last two fields;
the rounding is omitted here and the exact values are kept. -/
structure Metrics where
  stepCount : ℕ
  stepDetected : Bool
  activity : String
  activityConfidence : ℚ
  runningSpeedKmh : ℚ
  caloriesTotal : ℚ
deriving DecidableEq, Repr

/-- One call of `_process_activity_and_steps` (lines 764-950), factored at
the point where the sensor magnitudes are in hand: `accMag` stands for
`sqrt(ax^2+ay^2+az^2)` and `gyroMag` for `sqrt(gx^2+gy^2+gz^2)` computed
from the raw axes, `hr` for `float(sensor_data.get('heartRate', 0) or 0)`,
`ts` for the sample timestamp (the source substitutes the current time when
it is missing or unparsable), and `outcome` for the injected classifier
result as in `classifyActivity`.  Returns the updated state and the metrics
snapshot. -/
def processSample (st : StepState) (p : Profile) (ts accMag gyroMag hr : ℚ)
    (outcome : Option (String × ℚ)) : StepState × Metrics :=
  let buf := pushCap 100 st.buffer (ts, accMag)
  let acc := acceptStep st.lastStepTime st.stepCount ts (isPeak buf)
  let lastStep := acc.1
  let count := acc.2.1
  let det := acc.2.2
  let cad : ℚ := (cadence buf ts : ℚ)
  let ac := classifyActivity outcome cad accMag gyroMag
  let activity := ac.1
  let confidence := ac.2
  let heightM := max (1/2) (p.heightCm / 100)
  let strideM : ℚ :=
    if activity = "running" then 0.65 * heightM
    else if activity = "walking" then 0.415 * heightM
    else 0
  let speedKmh := ((cad / 60) * strideM) * 3.6
  let minutes := elapsedMinutes st.lastMetricTime ts
  let inc := calorieIncrement hr p.weightKg p.age minutes activity
  let cal := st.caloriesAccum + inc
  (⟨buf, lastStep, count, some ts, cal⟩,
   ⟨count, det, activity, confidence, speedKmh, cal⟩)

/-- One incoming sample for the analytics pipeline, at the same factoring
point as `processSample`. -/
structure SampleIn where
  ts : ℚ
  accMag : ℚ
  gyroMag : ℚ
  hr : ℚ
  outcome : Option (String × ℚ)
deriving DecidableEq, Repr

/-- Fold `processSample` over a sequence of samples of one session. -/
def runSamples (st : StepState) (p : Profile) (l : List SampleIn) : StepState :=
  l.foldl (fun s x => (processSample s p x.ts x.accMag x.gyroMag x.hr x.outcome).1) st

/-- Value set of the `rep_state` string field.  The source only ever
assigns `'up'` and `'down'` (initially `'up'`, line 399) but also compares
the field against `'rest'` in `_analyze_movement_tempo`, so all three
values are carried. -/
inductive RepPhase where
  | up
  | down
  | rest
deriving DecidableEq, Repr

/-- Rep-tracking state of `FormAnalyzer` used by the exercise analyzers:
`rep_state`, `last_rep_time`, `rep_durations` (trailing 5),
`movement_history` (trailing 20 `(pitch, roll, timestamp)` records) and the
`range_of_motion` min/max pair. -/
structure AState where
  repState : RepPhase
  lastRepTime : Option ℚ
  repDurations : List ℚ
  movementHistory : List (ℚ × ℚ × ℚ)
  romMin : ℚ
  romMax : ℚ
deriving DecidableEq, Repr

/-- State of a freshly constructed `FormAnalyzer` (lines 399-408):
`rep_state = 'up'`, no last rep time, empty histories, zero ROM. -/
def initAState : AState := ⟨.up, none, [], [], 0, 0⟩

/-- The two sensor fields the exercise analyzers read from `sensor_data`
(`gy` and `ax`). -/
structure SensorIn where
  gy : ℚ
  ax : ℚ
deriving DecidableEq, Repr

/-- The result triple of `analyze` plus the updated session state. -/
structure StepResult where
  state : AState
  score : ℤ
  feedback : List String
  rep : Bool
deriving DecidableEq, Repr

/-- Rep-completion bookkeeping `_update_rep_metrics` (lines 720-730):
append the just-completed duration when a previous rep time exists, keep
only the trailing 5 durations, store the new rep time, reset the
range-of-motion pair. -/
def updateRepMetrics (st : AState) (t : ℚ) : AState :=
  let durations :=
    match st.lastRepTime with
    | some t0 =>
      let d := st.repDurations ++ [t - t0]
      if 5 < d.length then d.drop 1 else d
    | none => st.repDurations
  { st with repDurations := durations, lastRepTime := some t,
            romMin := 0, romMax := 0 }

/-- History bookkeeping `_update_movement_history` (lines 655-669): append
the `(pitch, roll, timestamp)` record, keep the trailing 20, and widen the
range-of-motion pair. -/
def updateMovementHistory (st : AState) (pitch roll t : ℚ) : AState :=
  let h0 := st.movementHistory ++ [(pitch, roll, t)]
  let h := if 20 < h0.length then h0.drop 1 else h0
  { st with movementHistory := h,
            romMin := min st.romMin pitch, romMax := max st.romMax pitch }

/-- Jerk measure of `_analyze_bicep_curl` (lines 575-576): the absolute
pitch differences `|h[i+1] - h[i]|` for `i` in `range(len(h) - 2)` — note
the source iterates only to `len - 3`, skipping the most recent pair. -/
def pitchChanges (h : List (ℚ × ℚ × ℚ)) : List ℚ :=
  (List.range (h.length - 2)).map
    (fun i => |(h.getD (i + 1) (0, 0, 0)).1 - (h.getD i (0, 0, 0)).1|)

/-- Tempo feedback `_analyze_movement_tempo` (lines 671-693), called by
`analyze` only when sensor data is present. -/
def movementTempoFeedback (st : AState) (s : SensorIn) : List String :=
  if st.movementHistory.length < 2 then []
  else
    let gy := |s.gy|
    let fb :=
      if 200 < gy then ["⚠ Movement too fast - maintain control"]
      else if gy < 50 ∧ st.repState ≠ .rest then
        ["⚠ Movement too slow - maintain momentum"]
      else []
    match st.lastRepTime with
    | some _ =>
      if 0 < st.repDurations.length then
        let avg := st.repDurations.sum / st.repDurations.length
        if avg < 1.5 then fb ++ ["⚠ Slow down your reps"]
        else if 4 < avg then fb ++ ["⚠ Speed up slightly"]
        else fb
      else fb
    | none => fb

/-- Bicep-curl analyzer `_analyze_bicep_curl` (lines 516-591), thresholds
`min_curl = 60`, `max_curl = 120`, `target_curl = 90`, `max_roll = 10`,
`ideal_tempo = 2.0`, `tempo_range = 0.5`.  The movement history carried in
`st` already contains the current sample, as `analyze` appends it before
dispatching. -/
def analyzeBicepCurl (st : AState) (pitch roll : ℚ) (sd : Option SensorIn)
    (t : ℚ) : StepResult :=
  let phase : AState × ℤ × List String × Bool :=
    if st.repState = .down ∧ 60 < pitch then
      let st1 := { st with repState := .up }
      let base : ℤ × List String :=
        if 120 < pitch then (100 - 15, ["⚠️ Too much curl - maintain control"])
        else if 90 ≤ pitch then (100, ["💪 Perfect curl height!"])
        else (85, ["↑ Curl a bit higher"])
      let speed : ℤ × List String :=
        match sd with
        | some s =>
          if 200 < |s.gy| then (base.1 - 15, base.2 ++ ["⚠ Slower, control the curl"])
          else base
        | none => base
      let swing : ℤ × List String :=
        match sd with
        | some s =>
          if 1/2 < |s.ax| then (speed.1 - 20, speed.2 ++ ["⚠ Reduce body swing"])
          else speed
        | none => speed
      (st1, swing.1, swing.2, false)
    else if st.repState = .up ∧ pitch < 20 then
      let st1 := { st with repState := .down }
      let base : ℤ × List String :=
        if 5 < pitch then (100 - 10, ["↓ Extend arms fully"])
        else (100, ["✓ Good extension!"])
      (updateRepMetrics st1 t, base.1, base.2, true)
    else (st, 100, [], false)
  let st1 := phase.1
  let rolled : ℤ × List String :=
    if 10 < |roll| then
      (phase.2.1 - 20, phase.2.2.1 ++
        [if 0 < roll then "⚠ Keep right arm steady" else "⚠ Keep left arm steady"])
    else (phase.2.1, phase.2.2.1)
  let consist : ℤ × List String :=
    if 3 ≤ st1.movementHistory.length then
      let smoothed : ℤ × List String :=
        if 20 < listMaxD (pitchChanges st1.movementHistory) then
          (rolled.1 - 10, rolled.2 ++ ["⚠ Smooth out the movement"])
        else rolled
      if 2 ≤ st1.repDurations.length then
        let avg := (lastN 2 st1.repDurations).sum / 2
        if avg < 2 - 0.5 then
          (smoothed.1 - 10, smoothed.2 ++ ["⚠ Slow down for better form"])
        else if 2 + 0.5 < avg then
          (smoothed.1 - 5, smoothed.2 ++ ["⚠ Maintain steady pace"])
        else smoothed
      else smoothed
    else rolled
  ⟨st1, consist.1, consist.2, phase.2.2.2⟩

/-- Lateral-raise analyzer `_analyze_lateral_raise` (lines 593-622),
thresholds `min_raise = 20`, `max_raise = 100`, `max_roll = 12`. -/
def analyzeLateralRaise (st : AState) (pitch roll : ℚ) (t : ℚ) : StepResult :=
  let phase : AState × ℤ × List String × Bool :=
    if st.repState = .down ∧ 20 < pitch then
      let st1 := { st with repState := .up }
      if 100 < pitch then (st1, 100 - 10, ["⚠️ Too high - control the raise"], false)
      else (st1, 100, ["✓ Good raise"], false)
    else if st.repState = .up ∧ pitch < 20 then
      (updateRepMetrics { st with repState := .down } t, 100, [], true)
    else (st, 100, [], false)
  let rolled : ℤ × List String :=
    if 12 < |roll| then (phase.2.1 - 10, phase.2.2.1 ++ ["⚠ Keep wrist steady"])
    else (phase.2.1, phase.2.2.1)
  ⟨phase.1, rolled.1, rolled.2, phase.2.2.2⟩

/-- Shoulder-press analyzer `_analyze_shoulder_press` (lines 624-653),
thresholds `min_press = 30`, `max_press = 120`, `max_roll = 12`. -/
def analyzeShoulderPress (st : AState) (pitch roll : ℚ) (t : ℚ) : StepResult :=
  let phase : AState × ℤ × List String × Bool :=
    if st.repState = .down ∧ 30 < pitch then
      let st1 := { st with repState := .up }
      if 120 < pitch then (st1, 100 - 10, ["⚠️ Overextension"], false)
      else (st1, 100, ["✓ Good press"], false)
    else if st.repState = .up ∧ pitch < 30 then
      (updateRepMetrics { st with repState := .down } t, 100, [], true)
    else (st, 100, [], false)
  let rolled : ℤ × List String :=
    if 12 < |roll| then (phase.2.1 - 12, phase.2.2.1 ++ ["⚠ Keep elbows steady"])
    else (phase.2.1, phase.2.2.1)
  ⟨phase.1, rolled.1, rolled.2, phase.2.2.2⟩

/-- Stability analysis `_analyze_stability` (lines 695-718): with fewer
than 5 history records, full score and no feedback; otherwise variance of
the last 5 pitch values and of the last 5 roll values, with additive
penalties. -/
def analyzeStability (h : List (ℚ × ℚ × ℚ)) : ℤ × List String :=
  if h.length < 5 then (100, [])
  else
    let last5 := lastN 5 h
    let pv := listVar (last5.map (fun x => x.1))
    let rv := listVar (last5.map (fun x => x.2.1))
    let s1 : ℤ × List String :=
      if 100 < pv then (100 - 20, ["⚠ Stabilize your movement - too much variation"])
      else (100, [])
    if 50 < rv then (s1.1 - 15, s1.2 ++ ["⚠ Keep your form steady - reduce swaying"])
    else s1

/-- One call of `analyze` (lines 458-514) restricted to its pure analysis
path: append the sample to the movement history, dispatch on the exercise
name, add tempo feedback when sensor data is present, then fold in the
stability score.  An unrecognized exercise name returns early (line 489)
with score 0, a single feedback tag and no rep, leaving the rep state
untouched.  The mesh update, demo-mode heart-rate simulation and the
separate `_process_activity_and_steps` call (modelled by `processSample`)
do not touch the rep state or the result triple. -/
def analyzeStep (st : AState) (exercise : String) (pitch roll : ℚ)
    (sd : Option SensorIn) (t : ℚ) : StepResult :=
  let st := updateMovementHistory st pitch roll t
  if exercise = "bicep_curl" ∨ exercise = "lateral_raise" ∨
      exercise = "shoulder_press" ∨ exercise = "running" then
    let r :=
      if exercise = "bicep_curl" then analyzeBicepCurl st pitch roll sd t
      else if exercise = "lateral_raise" then analyzeLateralRaise st pitch roll t
      else if exercise = "shoulder_press" then analyzeShoulderPress st pitch roll t
      else ⟨st, 100, ["Running mode: use steps and heart rate metrics"], false⟩
    let r1 : StepResult :=
      match sd with
      | some s => { r with feedback := r.feedback ++ movementTempoFeedback r.state s }
      | none => r
    let stab := analyzeStability r1.state.movementHistory
    if stab.2 ≠ [] then
      { r1 with feedback := r1.feedback ++ stab.2, score := min r1.score stab.1 }
    else r1
  else
    ⟨st, 0, ["Select a wrist-compatible exercise to begin"], false⟩

/-- Run `analyzeStep` on a pitch/time sequence for one exercise with
`roll = 0` and no extra sensor data, collecting the per-sample results. -/
def runExercise (exercise : String) : AState → List (ℚ × ℚ) → List StepResult
  | _, [] => []
  | st, x :: xs =>
    let r := analyzeStep st exercise x.1 0 none x.2
    r :: runExercise exercise r.state xs

/-- Rep-completion bookkeeping never changes the phase field. -/
@[simp]
theorem updateRepMetrics_repState (st : AState) (t : ℚ) :
    (updateRepMetrics st t).repState = st.repState := by
  simp [updateRepMetrics]

/-- History bookkeeping never changes the phase field. -/
@[simp]
theorem updateMovementHistory_repState (st : AState) (pitch roll t : ℚ) :
    (updateMovementHistory st pitch roll t).repState = st.repState := by
  simp [updateMovementHistory]

/-- History bookkeeping never changes the rep-duration history. -/
@[simp]
theorem updateMovementHistory_repDurations (st : AState) (pitch roll t : ℚ) :
    (updateMovementHistory st pitch roll t).repDurations = st.repDurations := by
  simp [updateMovementHistory]

/-- History bookkeeping never changes the last rep timestamp. -/
@[simp]
theorem updateMovementHistory_lastRepTime (st : AState) (pitch roll t : ℚ) :
    (updateMovementHistory st pitch roll t).lastRepTime = st.lastRepTime := by
  simp [updateMovementHistory]

/-- The `up` and `down` phases are distinct (used to reduce branch
conditions). -/
@[simp]
theorem repPhase_up_ne_down : RepPhase.up ≠ RepPhase.down := by decide

/-- The `down` and `up` phases are distinct (used to reduce branch
conditions). -/
@[simp]
theorem repPhase_down_ne_up : RepPhase.down ≠ RepPhase.up := by decide

/-- The step count returned by the acceptance logic never decreases. -/
theorem acceptStep_count_le (last : Option ℚ) (count : ℕ) (now : ℚ) (isp : Bool) :
    count ≤ (acceptStep last count now isp).2.1 := by
  unfold acceptStep
  cases isp
  · simp
  · cases last
    · simp
    · simp only [Bool.true_eq, if_true]
      split_ifs <;> simp

/-- One pipeline call never decreases the step count. -/
theorem processSample_stepCount_le (st : StepState) (p : Profile)
    (ts accMag gyroMag hr : ℚ) (outcome : Option (String × ℚ)) :
    st.stepCount ≤ (processSample st p ts accMag gyroMag hr outcome).1.stepCount := by
  simpa [processSample] using
    acceptStep_count_le st.lastStepTime st.stepCount ts
      (isPeak (pushCap 100 st.buffer (ts, accMag)))

/-- The step count is non-decreasing across any sequence of samples. -/
theorem runSamples_stepCount_le (p : Profile) (samples : List SampleIn)
    (st : StepState) :
    st.stepCount ≤ (runSamples st p samples).stepCount := by
  induction samples generalizing st with
  | nil => simp [runSamples]
  | cons x xs ih =>
    calc st.stepCount
        ≤ (processSample st p x.ts x.accMag x.gyroMag x.hr x.outcome).1.stepCount :=
          processSample_stepCount_le ..
      _ ≤ (runSamples st p (x :: xs)).stepCount := by
          simpa [runSamples, List.foldl] using
            ih (processSample st p x.ts x.accMag x.gyroMag x.hr x.outcome).1

/-- Every MET value the fallback can produce is positive. -/
theorem metOf_pos (activity : String) : 0 < metOf activity := by
  unfold metOf
  split_ifs <;> norm_num

/-- Elapsed minutes between metric updates are never negative. -/
theorem elapsedMinutes_nonneg (lastMetric : Option ℚ) (now : ℚ) :
    0 ≤ elapsedMinutes lastMetric now := by
  unfold elapsedMinutes
  dsimp only
  split_ifs with h
  · positivity
  · exact le_refl 0

/-- The per-sample calorie increment is non-negative whenever the body
weight and the elapsed minutes are (the source clamps both the elapsed
time and the heart-rate formula). -/
theorem calorieIncrement_nonneg (hr weightKg age minutes : ℚ) (activity : String)
    (hw : 0 ≤ weightKg) (hm : 0 ≤ minutes) :
    0 ≤ calorieIncrement hr weightKg age minutes activity := by
  unfold calorieIncrement
  split_ifs with h
  · exact mul_nonneg (le_max_left 0 _) hm
  · have := metOf_pos activity
    have h60 : (0:ℚ) ≤ minutes / 60 := by positivity
    positivity

/-- Six quiet samples, one second apart, with constant acceleration
magnitude 1 (e.g. a resting device reading `(ax, ay, az) = (1, 0, 0)`):
no peak is ever detected, so no step is ever accepted. -/
def c1Samples : List SampleIn :=
  [⟨0, 1, 0, 0, none⟩, ⟨1, 1, 0, 0, none⟩, ⟨2, 1, 0, 0, none⟩,
   ⟨3, 1, 0, 0, none⟩, ⟨4, 1, 0, 0, none⟩, ⟨5, 1, 0, 0, none⟩]

/-- C1: the claim says the cadence fed to the activity classifier equals
the number of steps observed in the trailing 10-second window times 6.
The code instead counts every buffered sample in that window (the buffer
holds one entry per processed sample, not per step): after the six quiet
samples of `c1Samples` no step was ever accepted (`stepCount = 0` and
`lastStepTime` was never set), yet the cadence computed at the final
sample is `6 * 6 = 36`, not `0 * 6 = 0`.  This contradicts the code's own
comments ("Calculate cadence (steps per minute)", "Count actual steps"),
so the claim records the intent and the code is the slip. -/
theorem c1_cadence_at_failing_input :
    (runSamples initStepState defaultProfile c1Samples).stepCount = 0 ∧
    (runSamples initStepState defaultProfile c1Samples).lastStepTime = none ∧
    cadence (runSamples initStepState defaultProfile c1Samples).buffer 5 = 36 := by
  norm_num [c1Samples, runSamples, List.foldl, processSample, pushCap, isPeak,
    acceptStep, cadence, lastN, listMean, listVar, classifyActivity,
    simpleActivityClassification, metOf, elapsedMinutes, calorieIncrement,
    initStepState, defaultProfile, List.filter]

/-- C3: a step-count increment happens only when the elapsed time since
the previously accepted step lies in `[0.3, 2.0]` seconds inclusive, in
which case the last-step timestamp moves to the current sample time; the
first accepted candidate peak (no previous timestamp, candidate present)
sets the last-step timestamp to the current sample time without
incrementing the count — so consecutive accepted-step timestamps after the
first always differ by a value in `[0.3, 2.0]`; the count never decreases,
neither in one acceptance step nor across any sequence of processed
samples. -/
theorem c3_refractory_invariant (last : Option ℚ) (count : ℕ) (now : ℚ)
    (isp : Bool) (last' : Option ℚ) (count' : ℕ) (det : Bool)
    (st : StepState) (p : Profile) (samples : List SampleIn)
    (h : acceptStep last count now isp = (last', count', det)) :
    (count' = count ∨
      (count' = count + 1 ∧ last.isSome = true ∧
        3/10 ≤ now - last.getD 0 ∧ now - last.getD 0 ≤ 2 ∧ last' = some now)) ∧
    (last = none → count' = count) ∧
    (last = none → isp = true → last' = some now ∧ count' = count) ∧
    count ≤ count' ∧
    st.stepCount ≤ (runSamples st p samples).stepCount := by
  refine ⟨?_, ?_, ?_, ?_, runSamples_stepCount_le p samples st⟩
  · unfold acceptStep at h
    cases isp with
    | false =>
      simp only [Bool.false_eq_true, if_false, Prod.mk.injEq] at h
      exact Or.inl h.2.1.symm
    | true =>
      cases last with
      | none =>
        simp only [if_true, Prod.mk.injEq] at h
        exact Or.inl h.2.1.symm
      | some t0 =>
        simp only [if_true] at h
        by_cases hw : 3/10 ≤ now - t0 ∧ now - t0 ≤ 2
        · rw [if_pos hw] at h
          simp only [Prod.mk.injEq] at h
          exact Or.inr ⟨h.2.1.symm, by simp, by simpa using hw.1,
            by simpa using hw.2, h.1.symm⟩
        · rw [if_neg hw] at h
          simp only [Prod.mk.injEq] at h
          exact Or.inl h.2.1.symm
  · intro hnone
    subst hnone
    unfold acceptStep at h
    cases isp <;> simp_all
  · intro hnone hisp
    subst hnone
    subst hisp
    unfold acceptStep at h
    simp only [if_true, Prod.mk.injEq] at h
    exact ⟨h.1.symm, h.2.1.symm⟩
  · have := acceptStep_count_le last count now isp
    rw [h] at this
    exact this

/-- C3 witness: an accepted step 1 second after the previous one, at a
concrete state, with every hypothesis discharged. -/
theorem c3_refractory_invariant_witness :
    acceptStep (some 0) 5 1 true = (some 1, 6, true) ∧
    ((6 = 5 ∨
      (6 = 5 + 1 ∧ (some (0:ℚ)).isSome = true ∧
        3/10 ≤ (1:ℚ) - (some (0:ℚ)).getD 0 ∧ (1:ℚ) - (some (0:ℚ)).getD 0 ≤ 2 ∧
        some (1:ℚ) = some (1:ℚ))) ∧
     ((some (0:ℚ)) = none → 6 = 5) ∧
     ((some (0:ℚ)) = none → true = true → some (1:ℚ) = some 1 ∧ 6 = 5) ∧
     5 ≤ 6 ∧
     initStepState.stepCount ≤ (runSamples initStepState defaultProfile []).stepCount) := by
  have hacc : acceptStep (some 0) 5 1 true = (some 1, 6, true) := by
    norm_num [acceptStep]
  exact ⟨hacc,
    c3_refractory_invariant (some 0) 5 1 true (some 1) 6 true
      initStepState defaultProfile [] hacc⟩

/-- Session state whose rep phase is `down`, used as a concrete input. -/
def downAState : AState := { initAState with repState := .down }

/-- C2 counterexample: the claim says every exercise leaves the up phase
when pitch falls back below that exercise's lower threshold (for the bicep
curl, `min_curl = 60`).  At pitch 40 — below the bicep lower threshold —
the analyzer in the `up` phase neither transitions to `down` nor reports a
rep, because the source compares against the fixed constant 20, not
against `min_curl`. -/
theorem c2_counterexample :
    (40 : ℚ) < 60 ∧
    (analyzeBicepCurl initAState 40 0 none 0).state.repState = RepPhase.up ∧
    (analyzeBicepCurl initAState 40 0 none 0).rep = false := by
  refine ⟨by norm_num, ?_, ?_⟩ <;>
    norm_num [analyzeBicepCurl, initAState, lastN, listMaxD, pitchChanges]

/-- C2 amended: the down-to-up transition fires when pitch crosses above
the exercise's lower threshold (60 for bicep curl, 20 for lateral raise,
30 for shoulder press) and never reports a rep; the up-to-down transition
is the only one that reports a rep, and it fires below the same lower
threshold for lateral raise and shoulder press but below the fixed
constant 20 — not the lower threshold 60 — for the bicep curl. -/
theorem c2_amended_transitions (stD stU : AState) (p roll t : ℚ)
    (sd : Option SensorIn)
    (hD : stD.repState = RepPhase.down) (hU : stU.repState = RepPhase.up) :
    ((analyzeBicepCurl stD p roll sd t).state.repState =
      if 60 < p then RepPhase.up else RepPhase.down) ∧
    (analyzeBicepCurl stD p roll sd t).rep = false ∧
    ((analyzeBicepCurl stU p roll sd t).state.repState =
      if p < 20 then RepPhase.down else RepPhase.up) ∧
    (analyzeBicepCurl stU p roll sd t).rep = decide (p < 20) ∧
    ((analyzeLateralRaise stD p roll t).state.repState =
      if 20 < p then RepPhase.up else RepPhase.down) ∧
    (analyzeLateralRaise stD p roll t).rep = false ∧
    ((analyzeLateralRaise stU p roll t).state.repState =
      if p < 20 then RepPhase.down else RepPhase.up) ∧
    (analyzeLateralRaise stU p roll t).rep = decide (p < 20) ∧
    ((analyzeShoulderPress stD p roll t).state.repState =
      if 30 < p then RepPhase.up else RepPhase.down) ∧
    (analyzeShoulderPress stD p roll t).rep = false ∧
    ((analyzeShoulderPress stU p roll t).state.repState =
      if p < 30 then RepPhase.down else RepPhase.up) ∧
    (analyzeShoulderPress stU p roll t).rep = decide (p < 30) := by
  refine ⟨?_, ?_, ?_, ?_, ?_, ?_, ?_, ?_, ?_, ?_, ?_, ?_⟩
  · by_cases h : 60 < p <;> simp [analyzeBicepCurl, hD, hU, h]
  · by_cases h : 60 < p <;> simp [analyzeBicepCurl, hD, hU, h]
  · by_cases h : p < 20 <;> simp [analyzeBicepCurl, hD, hU, h]
  · by_cases h : p < 20 <;> simp [analyzeBicepCurl, hD, hU, h]
  · by_cases h : 20 < p <;> by_cases h2 : 100 < p <;>
      simp [analyzeLateralRaise, hD, hU, h, h2]
  · by_cases h : 20 < p <;> by_cases h2 : 100 < p <;>
      simp [analyzeLateralRaise, hD, hU, h, h2]
  · by_cases h : p < 20 <;> simp [analyzeLateralRaise, hD, hU, h]
  · by_cases h : p < 20 <;> simp [analyzeLateralRaise, hD, hU, h]
  · by_cases h : 30 < p <;> by_cases h2 : 120 < p <;>
      simp [analyzeShoulderPress, hD, hU, h, h2]
  · by_cases h : 30 < p <;> by_cases h2 : 120 < p <;>
      simp [analyzeShoulderPress, hD, hU, h, h2]
  · by_cases h : p < 30 <;> simp [analyzeShoulderPress, hD, hU, h]
  · by_cases h : p < 30 <;> simp [analyzeShoulderPress, hD, hU, h]

/-- C2 amended witness: the characterization applied at pitch 40 with the
concrete `down` and `up` states. -/
theorem c2_amended_transitions_witness :
    (downAState.repState = RepPhase.down ∧ initAState.repState = RepPhase.up) ∧
    ((analyzeBicepCurl downAState 40 0 none 0).state.repState =
      if (60:ℚ) < 40 then RepPhase.up else RepPhase.down) ∧
    (analyzeBicepCurl downAState 40 0 none 0).rep = false ∧
    ((analyzeBicepCurl initAState 40 0 none 0).state.repState =
      if (40:ℚ) < 20 then RepPhase.down else RepPhase.up) ∧
    (analyzeBicepCurl initAState 40 0 none 0).rep = decide ((40:ℚ) < 20) ∧
    ((analyzeLateralRaise downAState 40 0 0).state.repState =
      if (20:ℚ) < 40 then RepPhase.up else RepPhase.down) ∧
    (analyzeLateralRaise downAState 40 0 0).rep = false ∧
    ((analyzeLateralRaise initAState 40 0 0).state.repState =
      if (40:ℚ) < 20 then RepPhase.down else RepPhase.up) ∧
    (analyzeLateralRaise initAState 40 0 0).rep = decide ((40:ℚ) < 20) ∧
    ((analyzeShoulderPress downAState 40 0 0).state.repState =
      if (30:ℚ) < 40 then RepPhase.up else RepPhase.down) ∧
    (analyzeShoulderPress downAState 40 0 0).rep = false ∧
    ((analyzeShoulderPress initAState 40 0 0).state.repState =
      if (40:ℚ) < 30 then RepPhase.down else RepPhase.up) ∧
    (analyzeShoulderPress initAState 40 0 0).rep = decide ((40:ℚ) < 30) :=
  ⟨⟨rfl, rfl⟩,
    c2_amended_transitions downAState initAState 40 0 0 none rfl rfl⟩

/-- C4: whenever the cadence computed for the sample is below 20, the
acceleration magnitude below 1.05 and the gyroscope magnitude below 80,
the metrics snapshot reports activity `stationary` with confidence 0.9 —
for every classifier outcome, i.e. whether the injected model produced the
initial classification (any `some` outcome) or the heuristic fallback did
(`none`, covering a missing model, workout mode, and prediction
failure). -/
theorem c4_stationary_override (st : StepState) (p : Profile)
    (ts accMag gyroMag hr : ℚ) (outcome : Option (String × ℚ))
    (hc : ((cadence (pushCap 100 st.buffer (ts, accMag)) ts : ℕ) : ℚ) < 20)
    (ha : accMag < 1.05) (hg : gyroMag < 80) :
    (processSample st p ts accMag gyroMag hr outcome).2.activity = "stationary" ∧
    (processSample st p ts accMag gyroMag hr outcome).2.activityConfidence = 0.9 := by
  constructor <;> simp [processSample, classifyActivity, hc, ha, hg]

/-- C4 witness: a fresh session, a quiet sample, and an injected model
outcome claiming `running` with full confidence — the override still
reports `stationary` at 0.9. -/
theorem c4_stationary_override_witness :
    (((cadence (pushCap 100 initStepState.buffer ((0:ℚ), 1)) 0 : ℕ) : ℚ) < 20 ∧
      (1:ℚ) < 1.05 ∧ (0:ℚ) < 80) ∧
    (processSample initStepState defaultProfile 0 1 0 0
        (some ("running", 1))).2.activity = "stationary" ∧
    (processSample initStepState defaultProfile 0 1 0 0
        (some ("running", 1))).2.activityConfidence = 0.9 := by
  have hc : ((cadence (pushCap 100 initStepState.buffer ((0:ℚ), 1)) 0 : ℕ) : ℚ) < 20 := by
    norm_num [cadence, pushCap, initStepState, List.filter]
  exact ⟨⟨hc, by norm_num, by norm_num⟩,
    c4_stationary_override initStepState defaultProfile 0 1 0 0
      (some ("running", 1)) hc (by norm_num) (by norm_num)⟩

/-- The pitch trace of the spec's bicep-curl scenario, paired with sample
times 0, 1, ..., 6 (roll is 0 throughout and no extra sensor fields are
supplied). -/
def c5Pitches : List (ℚ × ℚ) :=
  [(0, 0), (30, 1), (70, 2), (95, 3), (60, 4), (15, 5), (3, 6)]

/-- The per-sample results of feeding the scenario to a fresh session. -/
def c5Results : List StepResult := runExercise "bicep_curl" initAState c5Pitches

/-- Default result value used for list indexing below. -/
def defaultStepResult : StepResult := ⟨initAState, 0, [], false⟩

/-- Result of the 1st scenario sample (pitch 0): the fresh session starts
in the `up` phase, so pitch 0 already completes a rep. -/
def c5r1 : StepResult :=
  ⟨⟨.down, some 0, [], [(0, 0, 0)], 0, 0⟩, 100, ["✓ Good extension!"], true⟩

/-- Result of the 2nd scenario sample (pitch 30). -/
def c5r2 : StepResult :=
  ⟨⟨.down, some 0, [], [(0, 0, 0), (30, 0, 1)], 0, 30⟩, 100, [], false⟩

/-- Result of the 3rd scenario sample (pitch 70): the down-to-up crossing,
below the 90 target, so the curl-higher tag and not the perfect-curl tag. -/
def c5r3 : StepResult :=
  ⟨⟨.up, some 0, [], [(0, 0, 0), (30, 0, 1), (70, 0, 2)], 0, 70⟩, 75,
    ["↑ Curl a bit higher", "⚠ Smooth out the movement"], false⟩

/-- Result of the 4th scenario sample (pitch 95, the peak): already in the
`up` phase, so no transition and no curl-height feedback at all. -/
def c5r4 : StepResult :=
  ⟨⟨.up, some 0, [], [(0, 0, 0), (30, 0, 1), (70, 0, 2), (95, 0, 3)], 0, 95⟩,
    90, ["⚠ Smooth out the movement"], false⟩

/-- Result of the 5th scenario sample (pitch 60). -/
def c5r5 : StepResult :=
  ⟨⟨.up, some 0, [], [(0, 0, 0), (30, 0, 1), (70, 0, 2), (95, 0, 3), (60, 0, 4)],
      0, 95⟩,
    80, ["⚠ Smooth out the movement", "⚠ Stabilize your movement - too much variation"],
    false⟩

/-- Result of the 6th scenario sample (pitch 15): the up-to-down crossing
below 20, the second rep of the run. -/
def c5r6 : StepResult :=
  ⟨⟨.down, some 5, [5],
      [(0, 0, 0), (30, 0, 1), (70, 0, 2), (95, 0, 3), (60, 0, 4), (15, 0, 5)],
      0, 0⟩,
    80,
    ["↓ Extend arms fully", "⚠ Smooth out the movement",
      "⚠ Stabilize your movement - too much variation"],
    true⟩

/-- Result of the 7th scenario sample (pitch 3). -/
def c5r7 : StepResult :=
  ⟨⟨.down, some 5, [5],
      [(0, 0, 0), (30, 0, 1), (70, 0, 2), (95, 0, 3), (60, 0, 4), (15, 0, 5),
        (3, 0, 6)],
      0, 3⟩,
    80, ["⚠ Smooth out the movement", "⚠ Stabilize your movement - too much variation"],
    false⟩

/-- Evaluation of the 1st scenario step. -/
theorem c5_step1 : analyzeStep initAState "bicep_curl" 0 0 none 0 = c5r1 := by
  norm_num [analyzeStep, analyzeBicepCurl, analyzeStability, updateMovementHistory,
    updateRepMetrics, pitchChanges, listMaxD, lastN, listVar, listMean,
    initAState, c5r1, List.range_succ, List.range_zero, List.getD, Option.getD,
    List.foldl]

/-- Evaluation of the 2nd scenario step. -/
theorem c5_step2 : analyzeStep c5r1.state "bicep_curl" 30 0 none 1 = c5r2 := by
  norm_num [analyzeStep, analyzeBicepCurl, analyzeStability, updateMovementHistory,
    updateRepMetrics, pitchChanges, listMaxD, lastN, listVar, listMean,
    c5r1, c5r2, List.range_succ, List.range_zero, List.getD, Option.getD,
    List.foldl]

/-- Evaluation of the 3rd scenario step. -/
theorem c5_step3 : analyzeStep c5r2.state "bicep_curl" 70 0 none 2 = c5r3 := by
  norm_num [analyzeStep, analyzeBicepCurl, analyzeStability, updateMovementHistory,
    updateRepMetrics, pitchChanges, listMaxD, lastN, listVar, listMean,
    c5r2, c5r3, List.range_succ, List.range_zero, List.getD, Option.getD,
    List.foldl]

/-- Evaluation of the 4th scenario step. -/
theorem c5_step4 : analyzeStep c5r3.state "bicep_curl" 95 0 none 3 = c5r4 := by
  norm_num [analyzeStep, analyzeBicepCurl, analyzeStability, updateMovementHistory,
    updateRepMetrics, pitchChanges, listMaxD, lastN, listVar, listMean,
    c5r3, c5r4, List.range_succ, List.range_zero, List.getD, Option.getD,
    List.foldl]

/-- Evaluation of the 5th scenario step. -/
theorem c5_step5 : analyzeStep c5r4.state "bicep_curl" 60 0 none 4 = c5r5 := by
  norm_num [analyzeStep, analyzeBicepCurl, analyzeStability, updateMovementHistory,
    updateRepMetrics, pitchChanges, listMaxD, lastN, listVar, listMean,
    c5r4, c5r5, List.range_succ, List.range_zero, List.getD, Option.getD,
    List.foldl]

/-- Evaluation of the 6th scenario step. -/
theorem c5_step6 : analyzeStep c5r5.state "bicep_curl" 15 0 none 5 = c5r6 := by
  norm_num [analyzeStep, analyzeBicepCurl, analyzeStability, updateMovementHistory,
    updateRepMetrics, pitchChanges, listMaxD, lastN, listVar, listMean,
    c5r5, c5r6, List.range_succ, List.range_zero, List.getD, Option.getD,
    List.foldl]

/-- Evaluation of the 7th scenario step. -/
theorem c5_step7 : analyzeStep c5r6.state "bicep_curl" 3 0 none 6 = c5r7 := by
  norm_num [analyzeStep, analyzeBicepCurl, analyzeStability, updateMovementHistory,
    updateRepMetrics, pitchChanges, listMaxD, lastN, listVar, listMean,
    c5r6, c5r7, List.range_succ, List.range_zero, List.getD, Option.getD,
    List.foldl]

/-- The scenario run, sample by sample. -/
theorem c5Results_eq :
    c5Results = [c5r1, c5r2, c5r3, c5r4, c5r5, c5r6, c5r7] := by
  rw [c5Results, c5Pitches]
  simp only [runExercise]
  rw [c5_step1, c5_step2, c5_step3, c5_step4, c5_step5, c5_step6, c5_step7]

/-- C5 counterexample: on the spec's scenario `[0, 30, 70, 95, 60, 15, 3]`
the very first sample (pitch 0) already reports a rep — the session starts
in the `up` phase and 0 < 20 — so the rep is not reported exactly on the
6th sample; and the feedback at the peak sample (95, the 4th) does not
contain the perfect-curl tag, because that tag is only emitted on the
sample where pitch first crosses the lower threshold 60 (here the 3rd,
pitch 70, which being below the 90 target gets the curl-higher tag
instead). -/
theorem c5_counterexample :
    (c5Results.getD 0 defaultStepResult).rep = true ∧
    (c5Results.getD 3 defaultStepResult).feedback.contains
      ("💪 Perfect curl height!") = false := by
  rw [c5Results_eq]
  constructor
  · rfl
  · decide

/-- C5 amended: on the scenario the rep flags are exactly
`[true, false, false, false, false, true, false]` — a rep on the first
sample (the initial phase is `up` and pitch 0 is below 20) and on the 6th
(pitch 15 crosses back below 20) — and no sample's feedback contains the
perfect-curl tag; the 3rd sample (pitch 70, the down-to-up crossing) gets
the curl-higher tag instead. -/
theorem c5_amended_run :
    c5Results.map (fun r => r.rep) =
      [true, false, false, false, false, true, false] ∧
    c5Results.map (fun r => r.feedback.contains ("💪 Perfect curl height!")) =
      [false, false, false, false, false, false, false] ∧
    (c5Results.getD 2 defaultStepResult).feedback.contains
      ("↑ Curl a bit higher") = true := by
  rw [c5Results_eq]
  refine ⟨rfl, ?_, ?_⟩ <;> decide

/-- One pipeline call never decreases the calorie accumulator, given a
non-negative body weight. -/
theorem processSample_caloriesAccum_le (st : StepState) (p : Profile)
    (ts accMag gyroMag hr : ℚ) (outcome : Option (String × ℚ))
    (hw : 0 ≤ p.weightKg) :
    st.caloriesAccum ≤ (processSample st p ts accMag gyroMag hr outcome).1.caloriesAccum := by
  have h := calorieIncrement_nonneg hr p.weightKg p.age
    (elapsedMinutes st.lastMetricTime ts)
    (classifyActivity outcome ((cadence (pushCap 100 st.buffer (ts, accMag)) ts : ℕ) : ℚ)
      accMag gyroMag).1
    hw (elapsedMinutes_nonneg st.lastMetricTime ts)
  simp [processSample]
  exact h

/-- The per-sample calorie increment vanishes when no time has elapsed. -/
theorem calorieIncrement_zero_minutes (hr weightKg age : ℚ) (activity : String) :
    calorieIncrement hr weightKg age 0 activity = 0 := by
  unfold calorieIncrement
  rw [if_neg (by simp)]
  simp

/-- C6: the calorie accumulator is monotonically non-decreasing over
samples (for a non-negative body weight): the per-sample increment is
never negative; in the heart-rate branch the kcal-per-minute value is the
formula clamped by `max 0`, hence non-negative even for in-range heart
rates that make the raw formula negative; and the elapsed time is clamped
to 0 whenever the clock goes backwards. -/
theorem c6_calorie_monotone (st : StepState) (p : Profile)
    (ts accMag gyroMag hr : ℚ) (outcome : Option (String × ℚ))
    (lm hr2 w2 age2 m2 hr3 w3 age3 m3 : ℚ) (act2 act3 : String)
    (hw : 0 ≤ p.weightKg) (hw2 : 0 ≤ w2) (hm2 : 0 ≤ m2)
    (hA3 : 0 < hr3 ∧ hr3 < 200 ∧ 0 < m3) (hlm : ts < lm) :
    st.caloriesAccum ≤ (processSample st p ts accMag gyroMag hr outcome).1.caloriesAccum ∧
    0 ≤ calorieIncrement hr2 w2 age2 m2 act2 ∧
    calorieIncrement hr3 w3 age3 m3 act3 =
      max 0 ((-55.0969 + 0.6309 * hr3 + 0.1988 * w3 + 0.2017 * age3) / 4.184) * m3 ∧
    0 ≤ max 0 ((-55.0969 + 0.6309 * hr3 + 0.1988 * w3 + 0.2017 * age3) / 4.184 : ℚ) ∧
    elapsedMinutes (some lm) ts = 0 := by
  refine ⟨processSample_caloriesAccum_le st p ts accMag gyroMag hr outcome hw,
    calorieIncrement_nonneg hr2 w2 age2 m2 act2 hw2 hm2,
    ?_, le_max_left 0 _, ?_⟩
  · rw [calorieIncrement, if_pos hA3]
  · unfold elapsedMinutes
    dsimp only [Option.getD]
    rw [max_eq_left (by linarith)]
    simp

/-- C6 witness: a concrete fresh session, a valid-range heart rate whose
formula value is positive, and a clock that goes backwards by one
second. -/
theorem c6_calorie_monotone_witness :
    ((0:ℚ) ≤ defaultProfile.weightKg ∧ (0:ℚ) ≤ 70 ∧ (0:ℚ) ≤ 0 ∧
      ((0:ℚ) < 140 ∧ (140:ℚ) < 200 ∧ (0:ℚ) < 1) ∧ (0:ℚ) < 1) ∧
    (initStepState.caloriesAccum ≤
      (processSample initStepState defaultProfile 0 1 0 0 none).1.caloriesAccum ∧
    0 ≤ calorieIncrement 1 70 30 0 "stationary" ∧
    calorieIncrement 140 70 30 1 "running" =
      max 0 ((-55.0969 + 0.6309 * 140 + 0.1988 * 70 + 0.2017 * 30) / 4.184) * 1 ∧
    0 ≤ max 0 ((-55.0969 + 0.6309 * 140 + 0.1988 * 70 + 0.2017 * 30) / 4.184 : ℚ) ∧
    elapsedMinutes (some 1) 0 = 0) :=
  ⟨⟨by norm_num [defaultProfile], by norm_num, le_refl 0,
      ⟨by norm_num, by norm_num, by norm_num⟩, by norm_num⟩,
    c6_calorie_monotone initStepState defaultProfile 0 1 0 0 none
      1 1 70 30 0 140 70 30 1 "stationary" "running"
      (by norm_num [defaultProfile]) (by norm_num) (le_refl 0)
      ⟨by norm_num, by norm_num, by norm_num⟩ (by norm_num)⟩

/-- C7: the heart-rate calorie formula is used exactly when the heart rate
is strictly between 0 and 200 and the elapsed minutes are positive; in
every other case the increment is the MET fallback
`met * weightKg * hours`, with MET 1.0 for stationary, 3.5 for walking and
9.8 for running; both branches are total, so no error is surfaced. -/
theorem c7_hr_formula_iff (hr w age minutes : ℚ) (act : String)
    (hr2 w2 age2 m2 : ℚ) (act2 : String)
    (hA : 0 < hr ∧ hr < 200 ∧ 0 < minutes)
    (hB : ¬(0 < hr2 ∧ hr2 < 200 ∧ 0 < m2)) :
    calorieIncrement hr w age minutes act =
      max 0 ((-55.0969 + 0.6309 * hr + 0.1988 * w + 0.2017 * age) / 4.184) * minutes ∧
    calorieIncrement hr2 w2 age2 m2 act2 = metOf act2 * w2 * (m2 / 60) ∧
    metOf "stationary" = 1 ∧ metOf "walking" = 3.5 ∧ metOf "running" = 9.8 := by
  refine ⟨?_, ?_, ?_, ?_, ?_⟩
  · rw [calorieIncrement, if_pos hA]
  · rw [calorieIncrement, if_neg hB]
  · rw [metOf, if_neg (by decide), if_neg (by decide)]
  · rw [metOf, if_pos rfl]
  · rw [metOf, if_neg (by decide), if_pos rfl]

/-- C7 witness: heart rate 140 for one minute selects the formula branch;
heart rate 0 (missing) falls back to the MET branch. -/
theorem c7_hr_formula_iff_witness :
    (((0:ℚ) < 140 ∧ (140:ℚ) < 200 ∧ (0:ℚ) < 1) ∧
      ¬((0:ℚ) < 0 ∧ (0:ℚ) < 200 ∧ (0:ℚ) < 1)) ∧
    (calorieIncrement 140 70 30 1 "running" =
      max 0 ((-55.0969 + 0.6309 * 140 + 0.1988 * 70 + 0.2017 * 30) / 4.184) * 1 ∧
    calorieIncrement 0 70 30 1 "walking" = metOf "walking" * 70 * (1 / 60) ∧
    metOf "stationary" = 1 ∧ metOf "walking" = 3.5 ∧ metOf "running" = 9.8) :=
  ⟨⟨⟨by norm_num, by norm_num, by norm_num⟩, by norm_num⟩,
    c7_hr_formula_iff 140 70 30 1 "running" 0 70 30 1 "walking"
      ⟨by norm_num, by norm_num, by norm_num⟩ (by norm_num)⟩

/-- C8: any exercise name outside the four recognized ones yields score 0,
the single explanatory feedback tag, and no rep, without touching the rep
state: phase, rep durations and the last rep timestamp are unchanged (only
the movement history, which the claim excludes, is appended to before the
dispatch). -/
theorem c8_unknown_exercise (st : AState) (ex : String) (pitch roll t : ℚ)
    (sd : Option SensorIn)
    (h1 : ex ≠ "bicep_curl") (h2 : ex ≠ "lateral_raise")
    (h3 : ex ≠ "shoulder_press") (h4 : ex ≠ "running") :
    (analyzeStep st ex pitch roll sd t).score = 0 ∧
    (analyzeStep st ex pitch roll sd t).feedback =
      ["Select a wrist-compatible exercise to begin"] ∧
    (analyzeStep st ex pitch roll sd t).rep = false ∧
    (analyzeStep st ex pitch roll sd t).state.repState = st.repState ∧
    (analyzeStep st ex pitch roll sd t).state.repDurations = st.repDurations ∧
    (analyzeStep st ex pitch roll sd t).state.lastRepTime = st.lastRepTime := by
  refine ⟨?_, ?_, ?_, ?_, ?_, ?_⟩ <;> simp [analyzeStep, h1, h2, h3, h4]

/-- C8 witness: the unsupported exercise name `squat` on a fresh session. -/
theorem c8_unknown_exercise_witness :
    (("squat" : String) ≠ "bicep_curl" ∧ ("squat" : String) ≠ "lateral_raise" ∧
      ("squat" : String) ≠ "shoulder_press" ∧ ("squat" : String) ≠ "running") ∧
    ((analyzeStep initAState "squat" 50 0 none 0).score = 0 ∧
    (analyzeStep initAState "squat" 50 0 none 0).feedback =
      ["Select a wrist-compatible exercise to begin"] ∧
    (analyzeStep initAState "squat" 50 0 none 0).rep = false ∧
    (analyzeStep initAState "squat" 50 0 none 0).state.repState = initAState.repState ∧
    (analyzeStep initAState "squat" 50 0 none 0).state.repDurations = initAState.repDurations ∧
    (analyzeStep initAState "squat" 50 0 none 0).state.lastRepTime = initAState.lastRepTime) :=
  ⟨⟨by decide, by decide, by decide, by decide⟩,
    c8_unknown_exercise initAState "squat" 50 0 0 none
      (by decide) (by decide) (by decide) (by decide)⟩

/-- C9: a freshly constructed session starts in the `up` phase, so for a
bicep-curl session the very first sample whose pitch is below 20 reports a
rep at once, with no preceding down-to-up transition. -/
theorem c9_initial_up_first_rep (p roll t : ℚ) (hp : p < 20) :
    initAState.repState = RepPhase.up ∧
    (analyzeStep initAState "bicep_curl" p roll none t).rep = true := by
  refine ⟨rfl, ?_⟩
  simp [analyzeStep, analyzeBicepCurl, updateMovementHistory, updateRepMetrics,
    analyzeStability, initAState, pitchChanges, lastN, listVar, listMean,
    listMaxD, hp]

/-- C9 witness: the first sample at pitch 10. -/
theorem c9_initial_up_first_rep_witness :
    (10:ℚ) < 20 ∧
    (initAState.repState = RepPhase.up ∧
      (analyzeStep initAState "bicep_curl" 10 0 none 0).rep = true) :=
  ⟨by norm_num, c9_initial_up_first_rep 10 0 0 (by norm_num)⟩

/-- C10: on the first sample a session processes through the analytics
path the last-metric timestamp is unset, so it is initialized to the
sample's own timestamp, the elapsed time is 0 and the calorie increment is
exactly 0 — whatever the heart rate, activity outcome or profile. -/
theorem c10_first_sample_zero_increment (st : StepState) (p : Profile)
    (ts accMag gyroMag hr : ℚ) (outcome : Option (String × ℚ))
    (h : st.lastMetricTime = none) :
    (processSample st p ts accMag gyroMag hr outcome).1.caloriesAccum =
      st.caloriesAccum ∧
    (processSample st p ts accMag gyroMag hr outcome).1.lastMetricTime = some ts := by
  have hmin : elapsedMinutes st.lastMetricTime ts = 0 := by
    simp [h, elapsedMinutes]
  constructor
  · simp [processSample, hmin, calorieIncrement_zero_minutes]
  · simp [processSample]

/-- C10 witness: the very first sample of a fresh session, with a nonzero
heart rate and an injected classifier outcome. -/
theorem c10_first_sample_zero_increment_witness :
    initStepState.lastMetricTime = none ∧
    ((processSample initStepState defaultProfile 7 1 0 140
        (some ("walking", 1))).1.caloriesAccum = initStepState.caloriesAccum ∧
    (processSample initStepState defaultProfile 7 1 0 140
        (some ("walking", 1))).1.lastMetricTime = some 7) :=
  ⟨rfl, c10_first_sample_zero_increment initStepState defaultProfile 7 1 0 140
    (some ("walking", 1)) rfl⟩

end FormAnalyzerSpec
